import Mathlib

/-
Verification of the layout computation of gravity.js (a jQuery plugin that
derives per-child margins, parent padding and text alignment pulling a group
of sibling elements toward a configured "gravitation node").

The embedding below translates the plugin's two algorithmic methods,
`buildCache` and `calcGravity`, into pure Lean functions over explicit
element states.  CSS pixel values are rationals; reads through jQuery's
`css(...)` go through `parseInt`, modelled by truncation toward zero.
One place in the source reads a property that does not exist on the record
it is applied to (`child.height` instead of `child.data.height`); JavaScript
yields `undefined` there and arithmetic on it produces NaN, which we model
explicitly with the small `JSNum` type.
-/

namespace Gravity

/-- A JavaScript number that may be NaN (also the result of arithmetic on
`undefined`).  Every comparison involving NaN is false. -/
inductive JSNum where
  | nan : JSNum
  | val : ℚ → JSNum
deriving DecidableEq

/-- JavaScript `+` on possibly-NaN numbers. -/
def jsAdd : JSNum → JSNum → JSNum
  | JSNum.nan, _ => JSNum.nan
  | JSNum.val _, JSNum.nan => JSNum.nan
  | JSNum.val a, JSNum.val b => JSNum.val (a + b)

/-- JavaScript `-` on possibly-NaN numbers. -/
def jsSub : JSNum → JSNum → JSNum
  | JSNum.nan, _ => JSNum.nan
  | JSNum.val _, JSNum.nan => JSNum.nan
  | JSNum.val a, JSNum.val b => JSNum.val (a - b)

/-- JavaScript `>` on possibly-NaN numbers: any comparison with NaN is false. -/
def jsGt : JSNum → JSNum → Bool
  | JSNum.nan, _ => false
  | JSNum.val _, JSNum.nan => false
  | JSNum.val a, JSNum.val b => decide (b < a)

/-- JavaScript `parseInt` applied to a CSS pixel string such as `"12.5px"`:
the leading integer part, i.e. truncation toward zero (`Int.tdiv` of the
numerator by the positive denominator). -/
def parseIntPx (q : ℚ) : ℤ := Int.tdiv q.num q.den

/-- `parseInt` of a zero pixel value is zero. -/
theorem parseIntPx_zero : parseIntPx 0 = 0 := rfl

/-- The plugin's configuration: `k` is the force-scaling constant
(default 0.618) and `density` inversely scales margin magnitude
(default 10). -/
structure Options where
  k : ℚ
  density : ℚ
deriving DecidableEq

/-- The measured offset of the gravitation node
(`$('.gravity-init .gravitation-node').offset()`), the same node for every
group of one pass. -/
structure GravityNode where
  offsetTop : ℚ
  offsetLeft : ℚ
deriving DecidableEq

/-- The DOM-observable state of one child element: outer size, document
offset, the four CSS margins and the computed `text-align`. -/
structure ChildState where
  width : ℚ
  height : ℚ
  offsetTop : ℚ
  offsetLeft : ℚ
  marginTop : ℚ
  marginRight : ℚ
  marginBottom : ℚ
  marginLeft : ℚ
  textAlign : String
deriving DecidableEq

/-- The DOM-observable state of a group's parent container. -/
structure ParentState where
  aWidth : ℚ
  aHeight : ℚ
  offsetTop : ℚ
  offsetLeft : ℚ
  paddingTop : ℚ
deriving DecidableEq

/-- One `{parent, children}` group as consumed by `calcGravity`. -/
structure GroupState where
  parent : ParentState
  children : List ChildState
deriving DecidableEq

/-- The per-child data record `child.data` computed in the first loop of
`calcGravity`: measured size, `force = height*k`, the element's center, and
the four force-derived margins
`parseInt(css(margin-side))/density*force`. -/
structure ChildData where
  width : ℚ
  height : ℚ
  force : ℚ
  centerTop : ℚ
  centerLeft : ℚ
  marginTop : ℚ
  marginRight : ℚ
  marginBottom : ℚ
  marginLeft : ℚ
deriving DecidableEq

/-- First-loop computation of `child.data` in `calcGravity`. -/
def calcChildData (opts : Options) (c : ChildState) : ChildData :=
  let force := c.height * opts.k
  { width := c.width
    height := c.height
    force := force
    centerTop := c.offsetTop + c.height / 2
    centerLeft := c.offsetLeft + c.width / 2
    marginTop := (parseIntPx c.marginTop : ℚ) / opts.density * force
    marginRight := (parseIntPx c.marginRight : ℚ) / opts.density * force
    marginBottom := (parseIntPx c.marginBottom : ℚ) / opts.density * force
    marginLeft := (parseIntPx c.marginLeft : ℚ) / opts.density * force }

/-- Accumulated `group.data.gWidth`: sum over children of
`margin.left + width + margin.right` (the freshly computed margins). -/
def calcGWidth (opts : Options) (cs : List ChildState) : ℚ :=
  (cs.map (fun c =>
    let d := calcChildData opts c
    d.marginLeft + d.width + d.marginRight)).sum

/-- Accumulated `group.data.gHeight`: sum over children of
`margin.top + height + margin.bottom` (the freshly computed margins). -/
def calcGHeight (opts : Options) (cs : List ChildState) : ℚ :=
  (cs.map (fun c =>
    let d := calcChildData opts c
    d.marginTop + d.height + d.marginBottom)).sum

/-- The vertical padding policy of `calcGravity`:
`delta.top = gravity.top - (parentOffset.top + gHeight/2)`, then
first-match three branches exactly as in the source. -/
def calcPaddingTop (opts : Options) (node : GravityNode) (g : GroupState) : ℚ :=
  let gHeight := calcGHeight opts g.children
  let centerTop := g.parent.offsetTop + gHeight / 2
  let deltaTop := node.offsetTop - centerTop
  if g.parent.aHeight ≤ gHeight then 0
  else if gHeight ≤ g.parent.aHeight - deltaTop then deltaTop - g.parent.offsetTop
  else g.parent.aHeight - gHeight

/-- The text-alignment heuristic of `calcGravity`: only a child whose
current `text-align` is the `start` sentinel is touched;
`center.left < gravity.left/2` gives `left`, otherwise
`gravity.left < center.left*3/2` gives `center`, otherwise `right`. -/
def calcTextAlign (node : GravityNode) (centerLeft : ℚ) (current : String) : String :=
  if current = "start" then
    if centerLeft < node.offsetLeft / 2 then "left"
    else if node.offsetLeft < centerLeft * 3 / 2 then "center"
    else "right"
  else current

/-- The source's read of `child.height` in the overflow-correction step:
the child record stores its measured height at `child.data.height` and has
no `height` property, so the read yields `undefined`, and any arithmetic on
it is NaN. -/
def childDotHeight : JSNum := JSNum.nan

/-- The overflow-correction guard
`child.height + (m*2) > group.data.aHeight` of the source, with the
`child.height` read modelled faithfully (NaN comparisons are false). -/
def overflowCheck (m aHeight : ℚ) : Bool :=
  jsGt (jsAdd childDotHeight (JSNum.val (m * 2))) (JSNum.val aHeight)

/-- The clamped margin `(group.data.aHeight - child.height)/2` of the
overflow branch; again `child.height` is `undefined`, so the value is NaN. -/
def clampMarginValue (aHeight : ℚ) : JSNum :=
  jsSub (JSNum.val aHeight) childDotHeight

/-- Writing a possibly-NaN number as a CSS pixel length: `'NaNpx'` is an
invalid CSS value and is discarded by the style engine, leaving the
property's previous value in place. -/
def cssWriteNum (current : ℚ) : JSNum → ℚ
  | JSNum.val q => q
  | JSNum.nan => current

/-- Second loop of `calcGravity` ("apply to DOM") for one child:
re-measure `m = outerHeight*k`, apply the text-alignment heuristic, write
the four force-derived margins, then run the (dead) overflow correction. -/
def applyChild (opts : Options) (node : GravityNode) (aHeight : ℚ) (c : ChildState) : ChildState :=
  let d := calcChildData opts c
  let m := c.height * opts.k
  let c1 : ChildState :=
    { c with
      textAlign := calcTextAlign node d.centerLeft c.textAlign
      marginTop := d.marginTop
      marginBottom := d.marginBottom
      marginLeft := d.marginLeft
      marginRight := d.marginRight }
  if overflowCheck m aHeight then
    { c1 with
      marginTop := cssWriteNum c1.marginTop (clampMarginValue aHeight)
      marginBottom := cssWriteNum c1.marginBottom (clampMarginValue aHeight) }
  else c1

/-- One group's full `calcGravity` processing: compute and write the
parent's `padding-top`, then process every child in document order. -/
def applyGroup (opts : Options) (node : GravityNode) (g : GroupState) : GroupState :=
  { parent := { g.parent with paddingTop := calcPaddingTop opts node g }
    children := g.children.map (applyChild opts node g.parent.aHeight) }

/-- The whole `calcGravity` pass: every group, in discovery order. -/
def calcGravity (opts : Options) (node : GravityNode) (groups : List GroupState) : List GroupState :=
  groups.map (applyGroup opts node)

/-- The overflow-correction guard never holds: `child.height` is
`undefined`, `undefined + m*2` is NaN, and `NaN > aHeight` is false. -/
theorem overflowCheck_false (m aHeight : ℚ) : overflowCheck m aHeight = false := rfl

/-- The text alignment written by `applyChild` is exactly the heuristic
applied to the child's horizontal center; the overflow branch never touches
alignment. -/
theorem applyChild_textAlign (opts : Options) (node : GravityNode) (aHeight : ℚ)
    (c : ChildState) :
    (applyChild opts node aHeight c).textAlign =
      calcTextAlign node (c.offsetLeft + c.width / 2) c.textAlign := by
  simp only [applyChild, overflowCheck_false, Bool.false_eq_true, if_false, calcChildData]

/- Concrete fixtures used by the claim instances below. -/

/-- A sample configuration with exactly representable rationals:
`k = 1/2`, `density = 10`. -/
def opts0 : Options := { k := 1/2, density := 10 }

/-- A gravitation node at horizontal offset 100 (the literal `G = 100` of
the spec's alignment examples). -/
def node100 : GravityNode := { offsetTop := 0, offsetLeft := 100 }

/-- A start-aligned child with horizontal center `30 + 20/2 = 40`. -/
def child40 : ChildState :=
  { width := 20, height := 10, offsetTop := 0, offsetLeft := 30
    marginTop := 0, marginRight := 0, marginBottom := 0, marginLeft := 0
    textAlign := "start" }

/-- A start-aligned child with horizontal center `50 + 20/2 = 60`. -/
def child60 : ChildState :=
  { width := 20, height := 10, offsetTop := 0, offsetLeft := 50
    marginTop := 0, marginRight := 0, marginBottom := 0, marginLeft := 0
    textAlign := "start" }

/-- A start-aligned child with horizontal center `70 + 20/2 = 80`. -/
def child80 : ChildState :=
  { width := 20, height := 10, offsetTop := 0, offsetLeft := 70
    marginTop := 0, marginRight := 0, marginBottom := 0, marginLeft := 0
    textAlign := "start" }

/-- C3: per-child force and margins.  `force = height * k` uses only the
child's own measured height; each side's margin is
`(parseInt(authored margin) / density) * force`; and for `k ≥ 0` the force
is monotone non-decreasing in height. -/
theorem c3_force_margin (opts : Options) (c csib : ChildState)
    (hk : 0 ≤ opts.k) (hh : c.height ≤ csib.height) :
    (calcChildData opts c).force = c.height * opts.k ∧
    (calcChildData opts c).marginTop =
      (parseIntPx c.marginTop : ℚ) / opts.density * (c.height * opts.k) ∧
    (calcChildData opts c).marginRight =
      (parseIntPx c.marginRight : ℚ) / opts.density * (c.height * opts.k) ∧
    (calcChildData opts c).marginBottom =
      (parseIntPx c.marginBottom : ℚ) / opts.density * (c.height * opts.k) ∧
    (calcChildData opts c).marginLeft =
      (parseIntPx c.marginLeft : ℚ) / opts.density * (c.height * opts.k) ∧
    (calcChildData opts c).force ≤ (calcChildData opts csib).force := by
  refine ⟨rfl, rfl, rfl, rfl, rfl, ?_⟩
  show c.height * opts.k ≤ csib.height * opts.k
  exact mul_le_mul_of_nonneg_right hh hk

/-- Witness for C3 at a concrete child pair. -/
theorem c3_force_margin_witness :
    (0 : ℚ) ≤ opts0.k ∧ child40.height ≤ child60.height ∧
    ((calcChildData opts0 child40).force = child40.height * opts0.k ∧
     (calcChildData opts0 child40).marginTop =
       (parseIntPx child40.marginTop : ℚ) / opts0.density * (child40.height * opts0.k) ∧
     (calcChildData opts0 child40).marginRight =
       (parseIntPx child40.marginRight : ℚ) / opts0.density * (child40.height * opts0.k) ∧
     (calcChildData opts0 child40).marginBottom =
       (parseIntPx child40.marginBottom : ℚ) / opts0.density * (child40.height * opts0.k) ∧
     (calcChildData opts0 child40).marginLeft =
       (parseIntPx child40.marginLeft : ℚ) / opts0.density * (child40.height * opts0.k) ∧
     (calcChildData opts0 child40).force ≤ (calcChildData opts0 child60).force) :=
  ⟨by norm_num [opts0], by norm_num [child40, child60],
   c3_force_margin opts0 child40 child60 (by norm_num [opts0]) (by norm_num [child40, child60])⟩

/-- C2: the vertical padding written by `applyGroup` follows the
first-match three-branch policy with
`delta.top = attractorOffset.top - (containerOffset.top + gHeight/2)`:
`gHeight ≥ aHeight` gives 0; otherwise `gHeight ≤ aHeight - delta.top`
gives `delta.top - containerOffset.top`; otherwise `aHeight - gHeight`. -/
theorem c2_paddingTop_policy (opts : Options) (node : GravityNode) (g : GroupState) :
    (g.parent.aHeight ≤ calcGHeight opts g.children →
      (applyGroup opts node g).parent.paddingTop = 0) ∧
    (calcGHeight opts g.children < g.parent.aHeight →
     calcGHeight opts g.children ≤
       g.parent.aHeight -
         (node.offsetTop - (g.parent.offsetTop + calcGHeight opts g.children / 2)) →
      (applyGroup opts node g).parent.paddingTop =
        (node.offsetTop - (g.parent.offsetTop + calcGHeight opts g.children / 2)) -
          g.parent.offsetTop) ∧
    (calcGHeight opts g.children < g.parent.aHeight →
     g.parent.aHeight -
       (node.offsetTop - (g.parent.offsetTop + calcGHeight opts g.children / 2)) <
       calcGHeight opts g.children →
      (applyGroup opts node g).parent.paddingTop =
        g.parent.aHeight - calcGHeight opts g.children) := by
  have hpad : (applyGroup opts node g).parent.paddingTop = calcPaddingTop opts node g := rfl
  refine ⟨?_, ?_, ?_⟩
  · intro h1
    rw [hpad]
    simp only [calcPaddingTop]
    rw [if_pos h1]
  · intro h1 h2
    rw [hpad]
    simp only [calcPaddingTop]
    rw [if_neg (not_le.mpr h1), if_pos h2]
  · intro h1 h2
    rw [hpad]
    simp only [calcPaddingTop]
    rw [if_neg (not_le.mpr h1), if_neg (not_le.mpr h2)]

/-- A parent container for the C2 witness: `aHeight = 100`, offset top 10. -/
def parentW : ParentState :=
  { aWidth := 200, aHeight := 100, offsetTop := 10, offsetLeft := 0, paddingTop := 0 }

/-- A child of height 20 with zero margins, for the C2 witness. -/
def childW : ChildState :=
  { width := 20, height := 20, offsetTop := 10, offsetLeft := 0
    marginTop := 0, marginRight := 0, marginBottom := 0, marginLeft := 0
    textAlign := "left" }

/-- The group for the C2 witness: `gHeight = 20 < 100 = aHeight`. -/
def groupW : GroupState := { parent := parentW, children := [childW] }

/-- A gravitation node at vertical offset 40, hitting the second padding
branch for `groupW`. -/
def nodeW : GravityNode := { offsetTop := 40, offsetLeft := 50 }

/-- Witness for C2: the second branch applies at the concrete group. -/
theorem c2_paddingTop_policy_witness :
    calcGHeight opts0 groupW.children < groupW.parent.aHeight ∧
    (applyGroup opts0 nodeW groupW).parent.paddingTop =
      (nodeW.offsetTop - (groupW.parent.offsetTop + calcGHeight opts0 groupW.children / 2)) -
        groupW.parent.offsetTop :=
  ⟨by norm_num [calcGHeight, calcChildData, parseIntPx, groupW, childW, parentW, opts0],
   (c2_paddingTop_policy opts0 nodeW groupW).2.1
     (by norm_num [calcGHeight, calcChildData, parseIntPx, groupW, childW, parentW, opts0])
     (by norm_num [calcGHeight, calcChildData, parseIntPx, groupW, childW, parentW, opts0, nodeW])⟩

/-- C4: the text-alignment policy.  A child whose current alignment is not
the `start` sentinel is never overridden; for a start-aligned child with
center `c` and attractor horizontal offset `G`: `c < G/2` gives `left`,
otherwise `G < 1.5*c` gives `center`, otherwise `right`. -/
theorem c4_textAlign_policy (opts : Options) (node : GravityNode) (aHeight : ℚ)
    (c : ChildState) :
    (c.textAlign ≠ "start" →
      (applyChild opts node aHeight c).textAlign = c.textAlign) ∧
    (c.textAlign = "start" →
     c.offsetLeft + c.width / 2 < node.offsetLeft / 2 →
      (applyChild opts node aHeight c).textAlign = "left") ∧
    (c.textAlign = "start" →
     ¬ c.offsetLeft + c.width / 2 < node.offsetLeft / 2 →
     node.offsetLeft < 3 / 2 * (c.offsetLeft + c.width / 2) →
      (applyChild opts node aHeight c).textAlign = "center") ∧
    (c.textAlign = "start" →
     ¬ c.offsetLeft + c.width / 2 < node.offsetLeft / 2 →
     ¬ node.offsetLeft < 3 / 2 * (c.offsetLeft + c.width / 2) →
      (applyChild opts node aHeight c).textAlign = "right") := by
  have hta := applyChild_textAlign opts node aHeight c
  rw [hta]
  unfold calcTextAlign
  refine ⟨?_, ?_, ?_, ?_⟩
  · intro h
    rw [if_neg h]
  · intro hs h1
    rw [if_pos hs, if_pos h1]
  · intro hs h1 h2
    have h2' : node.offsetLeft < (c.offsetLeft + c.width / 2) * 3 / 2 := by linarith
    rw [if_pos hs, if_neg h1, if_pos h2']
  · intro hs h1 h2
    have h2' : ¬ node.offsetLeft < (c.offsetLeft + c.width / 2) * 3 / 2 := by
      intro hlt
      exact h2 (by linarith)
    rw [if_pos hs, if_neg h1, if_neg h2']

/-- Witness for C4: the `left` branch at `G = 100`, `c = 40`, and the
no-override guarantee at an explicitly aligned child. -/
theorem c4_textAlign_policy_witness :
    child40.textAlign = "start" ∧
    child40.offsetLeft + child40.width / 2 < node100.offsetLeft / 2 ∧
    (applyChild opts0 node100 1000 child40).textAlign = "left" ∧
    childW.textAlign ≠ "start" ∧
    (applyChild opts0 node100 1000 childW).textAlign = childW.textAlign :=
  ⟨rfl, by norm_num [child40, node100],
   (c4_textAlign_policy opts0 node100 1000 child40).2.1 rfl (by norm_num [child40, node100]),
   by simp [childW],
   (c4_textAlign_policy opts0 node100 1000 childW).1 (by simp [childW])⟩

/-- C5 counterexample: at `G = 100` the start-aligned child with center
`c = 60` receives `right`, not `center` as the claim states (the code's
test is `100 < 60*3/2 = 90`, which is false). -/
theorem c5_counterexample :
    (applyChild opts0 node100 1000 child60).textAlign = "right" ∧
    (applyChild opts0 node100 1000 child60).textAlign ≠ "center" := by
  simp only [applyChild_textAlign]
  norm_num [calcTextAlign, child60, node100]
  decide

/-- C5 amended: at `G = 100` the three sample children receive `left`
(`c = 40`), `right` (`c = 60`, since `100 < 90` fails) and `center`
(`c = 80`, since `100 < 120` holds). -/
theorem c5_amended :
    (applyChild opts0 node100 1000 child40).textAlign = "left" ∧
    (applyChild opts0 node100 1000 child60).textAlign = "right" ∧
    (applyChild opts0 node100 1000 child80).textAlign = "center" := by
  simp only [applyChild_textAlign]
  norm_num [calcTextAlign, child40, child60, child80, node100]

/-- `applyChild` written out: the text alignment from the heuristic, the
four force-derived margins, everything else (size, offsets) untouched —
the overflow branch being dead. -/
theorem applyChild_eq (opts : Options) (node : GravityNode) (aHeight : ℚ) (c : ChildState) :
    applyChild opts node aHeight c =
      { c with
        textAlign := calcTextAlign node (c.offsetLeft + c.width / 2) c.textAlign
        marginTop := (calcChildData opts c).marginTop
        marginBottom := (calcChildData opts c).marginBottom
        marginLeft := (calcChildData opts c).marginLeft
        marginRight := (calcChildData opts c).marginRight } := by
  simp only [applyChild, overflowCheck_false, Bool.false_eq_true, if_false]
  rfl

/-- A child of height 100 with authored 20px margins inside a 150px-tall
container: the spec's overflow condition `100 + 2*(100*k) > 150` holds for
`k = 1/2`. -/
def c1child : ChildState :=
  { width := 100, height := 100, offsetTop := 0, offsetLeft := 0
    marginTop := 20, marginRight := 20, marginBottom := 20, marginLeft := 20
    textAlign := "left" }

/-- C1 (code bug): the overflow-correction guard reads `child.height`,
a property the child record does not have, so the guard
`undefined + m*2 > aHeight` is a NaN comparison and is false for every
child; at the concrete input the spec's condition holds, yet the final
top/bottom margins stay at the force-derived 100 instead of the clamped
`(150 - 100)/2 = 25`. -/
theorem c1_overflow_clamp_dead :
    (∀ m aHeight : ℚ, overflowCheck m aHeight = false) ∧
    c1child.height + 2 * (c1child.height * opts0.k) > 150 ∧
    (applyChild opts0 node100 150 c1child).marginTop = 100 ∧
    (applyChild opts0 node100 150 c1child).marginBottom = 100 ∧
    (150 - c1child.height) / 2 = 25 := by
  refine ⟨fun m aHeight => rfl, by norm_num [c1child, opts0], ?_, ?_, by norm_num [c1child]⟩
  · rw [applyChild_eq]
    norm_num [calcChildData, parseIntPx, c1child, opts0]
  · rw [applyChild_eq]
    norm_num [calcChildData, parseIntPx, c1child, opts0]

/-- A group whose content height 10 exceeds its container height 5. -/
def c9child : ChildState :=
  { width := 10, height := 10, offsetTop := 0, offsetLeft := 0
    marginTop := 0, marginRight := 0, marginBottom := 0, marginLeft := 0
    textAlign := "left" }

/-- The overfull group for the C9 counterexample. -/
def c9group : GroupState :=
  { parent := { aWidth := 5, aHeight := 5, offsetTop := 0, offsetLeft := 0, paddingTop := 0 }
    children := [c9child] }

/-- C9 counterexample: with `gHeight = 10 > 5 = aHeight` and a
non-negative container offset, `paddingTop = 0` but
`gHeight + paddingTop = 10 > 5 = aHeight`, refuting the claim's
"`gHeight + paddingTop <= aHeight` in all branches". -/
theorem c9_counterexample :
    0 ≤ c9group.parent.offsetTop ∧
    ¬ (calcGHeight opts0 c9group.children +
        (applyGroup opts0 node100 c9group).parent.paddingTop ≤ c9group.parent.aHeight) := by
  constructor
  · norm_num [c9group]
  · norm_num [calcGHeight, calcChildData, parseIntPx, c9group, c9child, opts0,
      applyGroup, calcPaddingTop]

/-- C9 amended: with `containerOffset.top ≥ 0`, `paddingTop = 0` when
`gHeight ≥ aHeight`, `paddingTop ≤ aHeight - gHeight` when
`gHeight < aHeight`, hence `gHeight + paddingTop ≤ aHeight` whenever
`gHeight ≤ aHeight` (but not when content already overflows). -/
theorem c9_amended (opts : Options) (node : GravityNode) (g : GroupState)
    (hoff : 0 ≤ g.parent.offsetTop) :
    (g.parent.aHeight ≤ calcGHeight opts g.children →
      (applyGroup opts node g).parent.paddingTop = 0) ∧
    (calcGHeight opts g.children < g.parent.aHeight →
      (applyGroup opts node g).parent.paddingTop ≤
        g.parent.aHeight - calcGHeight opts g.children) ∧
    (calcGHeight opts g.children ≤ g.parent.aHeight →
      calcGHeight opts g.children + (applyGroup opts node g).parent.paddingTop ≤
        g.parent.aHeight) := by
  have hpad : (applyGroup opts node g).parent.paddingTop = calcPaddingTop opts node g := rfl
  refine ⟨fun h1 => ?_, fun h1 => ?_, fun h1 => ?_⟩ <;>
    · rw [hpad]
      simp only [calcPaddingTop]
      split_ifs <;> linarith

/-- Witness for C9's amended bound at a concrete in-bounds group. -/
theorem c9_amended_witness :
    calcGHeight opts0 groupW.children + (applyGroup opts0 nodeW groupW).parent.paddingTop ≤
      groupW.parent.aHeight :=
  (c9_amended opts0 nodeW groupW (by norm_num [groupW, parentW])).2.2
    (by norm_num [calcGHeight, calcChildData, parseIntPx, groupW, childW, parentW, opts0])

/-- The alignment heuristic is idempotent: it only rewrites the `start`
sentinel, and it never outputs `start`. -/
theorem calcTextAlign_idem (node : GravityNode) (cl : ℚ) (t : String) :
    calcTextAlign node cl (calcTextAlign node cl t) = calcTextAlign node cl t := by
  have e1 : ("left" : String) ≠ "start" := by decide
  have e2 : ("center" : String) ≠ "start" := by decide
  have e3 : ("right" : String) ≠ "start" := by decide
  by_cases hs : t = "start"
  · by_cases h1 : cl < node.offsetLeft / 2
    · simp [calcTextAlign, hs, h1, e1]
    · by_cases h2 : node.offsetLeft < cl * 3 / 2
      · simp [calcTextAlign, hs, h1, h2, e2]
      · simp [calcTextAlign, hs, h1, h2, e3]
  · simp [calcTextAlign, hs]

/-- The top margin written by `applyChild` is the force-derived one. -/
theorem applyChild_marginTop (opts : Options) (node : GravityNode) (aHeight : ℚ)
    (c : ChildState) :
    (applyChild opts node aHeight c).marginTop = (calcChildData opts c).marginTop := by
  rw [applyChild_eq]

/-- `applyChild` keeps a child's measured height. -/
theorem applyChild_height (opts : Options) (node : GravityNode) (aHeight : ℚ)
    (c : ChildState) : (applyChild opts node aHeight c).height = c.height := by
  rw [applyChild_eq]

/-- On a child whose four CSS margins are zero, `applyChild` is
idempotent: the written margins are zero again and the alignment
heuristic never reintroduces the `start` sentinel. -/
theorem applyChild_idem (opts : Options) (node : GravityNode) (aHeight : ℚ)
    (c : ChildState) (h1 : c.marginTop = 0) (h2 : c.marginRight = 0)
    (h3 : c.marginBottom = 0) (h4 : c.marginLeft = 0) :
    applyChild opts node aHeight (applyChild opts node aHeight c) =
      applyChild opts node aHeight c := by
  simp only [applyChild_eq, calcChildData, h1, h2, h3, h4, parseIntPx_zero,
    Int.cast_zero, zero_div, zero_mul]
  simp [calcTextAlign_idem]

/-- With all margins zero, a group's accumulated content height is just the
sum of the children's measured heights. -/
theorem calcGHeight_zero_margins (opts : Options) (cs : List ChildState)
    (hm : ∀ c ∈ cs, c.marginTop = 0 ∧ c.marginBottom = 0) :
    calcGHeight opts cs = (cs.map ChildState.height).sum := by
  unfold calcGHeight
  induction cs with
  | nil => rfl
  | cons a as ih =>
    simp only [List.map_cons, List.sum_cons]
    rw [ih (fun c hc => hm c (List.mem_cons_of_mem a hc))]
    have ha := hm a (List.mem_cons_self a as)
    simp [calcChildData, ha.1, ha.2, parseIntPx_zero]

/-- The parent written by `applyGroup` keeps its measured height. -/
theorem applyGroup_parent_aHeight (opts : Options) (node : GravityNode) (g : GroupState) :
    (applyGroup opts node g).parent.aHeight = g.parent.aHeight := rfl

/-- The parent written by `applyGroup` keeps its offset. -/
theorem applyGroup_parent_offsetTop (opts : Options) (node : GravityNode) (g : GroupState) :
    (applyGroup opts node g).parent.offsetTop = g.parent.offsetTop := rfl

/-- The children written by `applyGroup`. -/
theorem applyGroup_children (opts : Options) (node : GravityNode) (g : GroupState) :
    (applyGroup opts node g).children =
      g.children.map (applyChild opts node g.parent.aHeight) := rfl

/-- On a group all of whose children have zero margins, one full group
pass is a fixed point of a second pass. -/
theorem applyGroup_idem (opts : Options) (node : GravityNode) (g : GroupState)
    (hm : ∀ c ∈ g.children, c.marginTop = 0 ∧ c.marginRight = 0 ∧
      c.marginBottom = 0 ∧ c.marginLeft = 0) :
    applyGroup opts node (applyGroup opts node g) = applyGroup opts node g := by
  have hm' : ∀ c ∈ (applyGroup opts node g).children, c.marginTop = 0 ∧ c.marginRight = 0 ∧
      c.marginBottom = 0 ∧ c.marginLeft = 0 := by
    intro c hc
    rw [applyGroup_children] at hc
    rw [List.mem_map] at hc
    obtain ⟨c0, hc0, rfl⟩ := hc
    have h0 := hm c0 hc0
    rw [applyChild_eq]
    simp [calcChildData, h0.1, h0.2.1, h0.2.2.1, h0.2.2.2, parseIntPx_zero]
  have hheights : ((applyGroup opts node g).children.map ChildState.height).sum =
      (g.children.map ChildState.height).sum := by
    rw [applyGroup_children, List.map_map]
    exact congrArg List.sum
      (List.map_congr_left (fun c _ => applyChild_height opts node g.parent.aHeight c))
  have hgh : calcGHeight opts (applyGroup opts node g).children =
      calcGHeight opts g.children := by
    rw [calcGHeight_zero_margins opts _ (fun c hc => ⟨(hm' c hc).1, (hm' c hc).2.2.1⟩),
        calcGHeight_zero_margins opts _ (fun c hc => ⟨(hm c hc).1, (hm c hc).2.2.1⟩)]
    exact hheights
  have hp : calcPaddingTop opts node (applyGroup opts node g) = calcPaddingTop opts node g := by
    simp only [calcPaddingTop, applyGroup_parent_aHeight, applyGroup_parent_offsetTop, hgh]
  have hparent : (applyGroup opts node (applyGroup opts node g)).parent =
      (applyGroup opts node g).parent := by
    show ({ (applyGroup opts node g).parent with
      paddingTop := calcPaddingTop opts node (applyGroup opts node g) } : ParentState) = _
    rw [hp]
    rfl
  have hchildren : (applyGroup opts node (applyGroup opts node g)).children =
      (applyGroup opts node g).children := by
    rw [applyGroup_children opts node (applyGroup opts node g), applyGroup_parent_aHeight,
        applyGroup_children opts node g, List.map_map]
    exact List.map_congr_left (fun c hc =>
      applyChild_idem opts node g.parent.aHeight c (hm c hc).1 (hm c hc).2.1
        (hm c hc).2.2.1 (hm c hc).2.2.2)
  have hsplit : applyGroup opts node (applyGroup opts node g) =
      { parent := (applyGroup opts node (applyGroup opts node g)).parent
        children := (applyGroup opts node (applyGroup opts node g)).children } := rfl
  rw [hsplit, hparent, hchildren]

/-- A group with a start-aligned child carrying authored 20px margins, on
which the layout pass is not idempotent. -/
def c6child : ChildState :=
  { width := 100, height := 100, offsetTop := 0, offsetLeft := 0
    marginTop := 20, marginRight := 20, marginBottom := 20, marginLeft := 20
    textAlign := "start" }

/-- The container of `c6child`. -/
def c6group : GroupState :=
  { parent := { aWidth := 200, aHeight := 100, offsetTop := 0, offsetLeft := 0, paddingTop := 0 }
    children := [c6child] }

/-- The gravitation node used in the idempotence analysis. -/
def nodeG : GravityNode := { offsetTop := 50, offsetLeft := 50 }

/-- C6 counterexample: one pass turns the authored 20px top margin into
`20/10 * (100*(1/2)) = 100`; a second pass, reading the written styles,
turns it into `100/10 * 50 = 500`, so the margins after the two passes
differ and the first pass's output is not a fixed point. -/
theorem c6_counterexample :
    ((calcGravity opts0 nodeG (calcGravity opts0 nodeG [c6group])).map
        (fun g => g.children.map ChildState.marginTop)) ≠
      ((calcGravity opts0 nodeG [c6group]).map
        (fun g => g.children.map ChildState.marginTop)) := by
  norm_num [calcGravity, applyGroup_children, applyGroup_parent_aHeight,
    applyChild_marginTop, applyChild_height, calcChildData, parseIntPx, Rat.num_ofNat,
    Rat.den_ofNat, Int.tdiv_one, c6group, c6child, opts0]

/-- C6 amended: the pass is a fixed point only when re-deriving each margin
from the written value reproduces it; in particular, when every child's
margins are zero, a second pass reproduces the first pass's margins,
padding and alignment exactly. -/
theorem c6_amended (opts : Options) (node : GravityNode) (groups : List GroupState)
    (hm : ∀ g ∈ groups, ∀ c ∈ g.children, c.marginTop = 0 ∧ c.marginRight = 0 ∧
      c.marginBottom = 0 ∧ c.marginLeft = 0) :
    calcGravity opts node (calcGravity opts node groups) = calcGravity opts node groups := by
  unfold calcGravity
  rw [List.map_map]
  exact List.map_congr_left (fun g hg => applyGroup_idem opts node g (hm g hg))

/-- Witness for C6's amended fixed point on a concrete zero-margin group. -/
theorem c6_amended_witness :
    calcGravity opts0 nodeW (calcGravity opts0 nodeW [groupW]) =
      calcGravity opts0 nodeW [groupW] :=
  c6_amended opts0 nodeW [groupW] (by
    intro g hg c hc
    rw [List.mem_singleton] at hg
    subst hg
    simp only [groupW] at hc
    rw [List.mem_singleton] at hc
    subst hc
    exact ⟨rfl, rfl, rfl, rfl⟩)

/-- A child element whose geometry may be unobtainable: `none` models a
detached element, for which jQuery's `offset()` returns `undefined` and the
source's read of `.top` throws a TypeError. -/
structure MeasChild where
  geom : Option ChildState
deriving DecidableEq

/-- A group whose parent measurement may fail the same way. -/
structure MeasGroup where
  parentGeom : Option ParentState
  children : List MeasChild
deriving DecidableEq

/-- The only failure the source can produce while measuring: a TypeError
from reading `.top` of an `undefined` offset.  The source defines no error
type of its own. -/
inductive JsError where
  | typeError : JsError
deriving DecidableEq

/-- Measuring a group's parent (`$(group.parent).offset().top`): throws on
a detached parent. -/
def measParent : Option ParentState → Except JsError ParentState
  | some p => Except.ok p
  | none => Except.error JsError.typeError

/-- Measuring a group's children in document order
(`$(child.id).offset().top` inside the first loop): the first detached
child throws. -/
def measChildren : List MeasChild → Except JsError (List ChildState)
  | [] => Except.ok []
  | mc :: mcs =>
    match mc.geom with
    | none => Except.error JsError.typeError
    | some c =>
      match measChildren mcs with
      | Except.ok cs => Except.ok (c :: cs)
      | Except.error e => Except.error e

/-- One group's processing under possible measurement failure.  In the
source every measurement read happens in the first loop, before the
padding write and the second (write-back) loop, so a group that throws has
had none of its styles written. -/
def processGroup (opts : Options) (node : GravityNode) (g : MeasGroup) :
    Except JsError GroupState :=
  match measParent g.parentGeom with
  | Except.error e => Except.error e
  | Except.ok p =>
    match measChildren g.children with
    | Except.error e => Except.error e
    | Except.ok cs => Except.ok (applyGroup opts node { parent := p, children := cs })

/-- The measured-and-written form of a successfully processed group. -/
def writeBack (g : GroupState) : MeasGroup :=
  { parentGeom := some g.parent
    children := g.children.map (fun c => { geom := some c }) }

/-- The whole pass under possible failure: groups are processed in order;
a thrown TypeError propagates out of `$.each`, so the failing group and
every following group keep their prior state, while groups already
processed keep their written styles (the DOM is mutated in place). -/
def calcGravityRun (opts : Options) (node : GravityNode) :
    List MeasGroup → List MeasGroup × Option JsError
  | [] => ([], none)
  | g :: gs =>
    match processGroup opts node g with
    | Except.ok g2 =>
      let r := calcGravityRun opts node gs
      (writeBack g2 :: r.1, r.2)
    | Except.error e => (g :: gs, some e)

/-- Whether a group's measurements all succeed. -/
def processOk (opts : Options) (node : GravityNode) (g : MeasGroup) : Bool :=
  match processGroup opts node g with
  | Except.ok _ => true
  | Except.error _ => false

/-- The state a group is left in by a pass that reaches it and measures it
successfully. -/
def layoutOk (opts : Options) (node : GravityNode) (g : MeasGroup) : MeasGroup :=
  match processGroup opts node g with
  | Except.ok g2 => writeBack g2
  | Except.error _ => g

/-- The measurable parent used by `mgOk`. -/
def mgParentOk : ParentState :=
  { aWidth := 200, aHeight := 100, offsetTop := 0, offsetLeft := 0, paddingTop := 0 }

/-- A fully measurable group whose layout changes its child's margins. -/
def mgOk : MeasGroup :=
  { parentGeom := some mgParentOk
    children := [{ geom := some c6child }] }

/-- A group whose parent is detached: its measurement throws. -/
def mgFail : MeasGroup := { parentGeom := none, children := [] }

/-- C7 counterexample: in a three-group pass whose second group fails to
measure, the pass ends in a thrown TypeError (no aggregated error list,
no `GroupLayoutError` value exists in the source), and the third group —
though fully measurable and in need of layout — is left untouched,
refuting "every other group in the same pass is still fully laid out". -/
theorem c7_counterexample :
    (calcGravityRun opts0 nodeG [mgOk, mgFail, mgOk]).2 = some JsError.typeError ∧
    (calcGravityRun opts0 nodeG [mgOk, mgFail, mgOk]).1.drop 1 = [mgFail, mgOk] ∧
    (processGroup opts0 nodeG mgOk).toOption.map writeBack ≠ some mgOk := by
  refine ⟨rfl, rfl, ?_⟩
  norm_num [processGroup, measParent, measChildren, mgOk, writeBack,
    applyGroup_children, applyChild_eq, applyGroup, Except.toOption, calcChildData,
    parseIntPx, Rat.num_ofNat, Rat.den_ofNat, Int.tdiv_one, c6child, opts0,
    MeasGroup.mk.injEq, MeasChild.mk.injEq, ChildState.mk.injEq]

/-- C7 amended: a measurement failure in one group throws immediately:
groups before it keep their fully written layout, the failing group and
every group after it keep exactly their prior state (a group's
measurements all precede its writes), and the pass reports the single
thrown error rather than an aggregated per-group list. -/
theorem c7_amended (opts : Options) (node : GravityNode) (pre : List MeasGroup)
    (g : MeasGroup) (post : List MeasGroup) (e : JsError)
    (hpre : ∀ g1 ∈ pre, processOk opts node g1 = true)
    (hg : processGroup opts node g = Except.error e) :
    calcGravityRun opts node (pre ++ g :: post) =
      (pre.map (layoutOk opts node) ++ g :: post, some e) := by
  induction pre with
  | nil => simp [calcGravityRun, hg]
  | cons a as ih =>
    have ha := hpre a (List.mem_cons_self a as)
    rw [processOk] at ha
    cases hpa : processGroup opts node a with
    | error e2 =>
      rw [hpa] at ha
      simp at ha
    | ok g2 =>
      have ihr := ih (fun g1 hg1 => hpre g1 (List.mem_cons_of_mem a hg1))
      simp only [List.cons_append, List.map_cons]
      simp only [calcGravityRun, hpa]
      rw [ihr]
      simp [layoutOk, hpa]

/-- Witness for C7's amended propagation at the concrete three-group
pass. -/
theorem c7_amended_witness :
    calcGravityRun opts0 nodeG ([mgOk] ++ mgFail :: [mgOk]) =
      ([mgOk].map (layoutOk opts0 nodeG) ++ mgFail :: [mgOk], some JsError.typeError) :=
  c7_amended opts0 nodeG [mgOk] mgFail [mgOk] JsError.typeError
    (by
      intro g1 hg1
      rw [List.mem_singleton] at hg1
      subst hg1
      rfl)
    rfl

/-- One `.gravity` element found by `$element.find('.gravity')` in document
order, identified by the DOM parent element it sits under. -/
structure GravityChild where
  parentKey : ℕ
deriving DecidableEq

/-- One record pushed onto `options.elements`: the gravity-id baked into
the stored parent selector, and the stored child selector indices. -/
structure CacheGroup where
  parent : ℕ
  children : List ℕ
deriving DecidableEq

/-- The mutable state of `buildCache`: the `parents` counter, the
`options.elements` array, and the `gravity-id` attributes already written
onto parent elements (an association list keyed by parent element). -/
structure CacheState where
  parents : ℕ
  elements : List CacheGroup
  attr : List (ℕ × ℕ)
deriving DecidableEq

/-- Reading a parent element's current `gravity-id` attribute. -/
def lookupAttr : List (ℕ × ℕ) → ℕ → Option ℕ
  | [], _ => none
  | p :: ps, key => if p.1 = key then some p.2 else lookupAttr ps key

/-- In-place update of one array slot, as
`options.elements[parents].children.push(...)` mutates the array. -/
def listModify {α : Type} : List α → ℕ → (α → α) → List α
  | [], _, _ => []
  | a :: as, 0, f => f a :: as
  | a :: as, n + 1, f => a :: listModify as n f

/-- The unconditional `options.elements[parents].children.push({id: ...})`
at the end of each `buildCache` iteration. -/
def pushChild (st : CacheState) (index : ℕ) : CacheState :=
  { st with
    elements := listModify st.elements st.parents
      (fun gr => { gr with children := gr.children ++ [index] }) }

/-- One iteration of the `each` loop of `buildCache`: if the parent has no
`gravity-id` yet, tag it with the current `parents` value, push a fresh
group record, and run the guarded increment `if(parents>0) parents += 1`;
then push the child into `elements[parents]`. -/
def buildCacheStep (st : CacheState) (index : ℕ) (child : GravityChild) : CacheState :=
  match lookupAttr st.attr child.parentKey with
  | some _ => pushChild st index
  | none =>
    let st1 : CacheState :=
      { st with
        attr := (child.parentKey, st.parents) :: st.attr
        elements := st.elements ++ [{ parent := st.parents, children := [] }] }
    let st2 : CacheState :=
      if st1.parents > 0 then { st1 with parents := st1.parents + 1 } else st1
    pushChild st2 index

/-- The `each` loop of `buildCache` with its running child index. -/
def buildCacheAux : ℕ → List GravityChild → CacheState → CacheState
  | _, [], st => st
  | i, c :: cs, st => buildCacheAux (i + 1) cs (buildCacheStep st i c)

/-- `buildCache` over the `.gravity` elements of the tree in document
order, starting from `parents = 0` and an empty `options.elements`. -/
def buildCache (tree : List GravityChild) : CacheState :=
  buildCacheAux 0 tree { parents := 0, elements := [], attr := [] }

/-- An element of a modified list is an original element or the image of
the one modified. -/
theorem mem_listModify {α : Type} (l : List α) (n : ℕ) (f : α → α) :
    ∀ a ∈ listModify l n f, a ∈ l ∨ ∃ b ∈ l, a = f b := by
  induction l generalizing n with
  | nil =>
    intro a ha
    simp [listModify] at ha
  | cons x xs ih =>
    intro a ha
    cases n with
    | zero =>
      rw [listModify] at ha
      rcases List.mem_cons.mp ha with h | h
      · exact Or.inr ⟨x, List.mem_cons_self x xs, h⟩
      · exact Or.inl (List.mem_cons_of_mem x h)
    | succ m =>
      rw [listModify] at ha
      rcases List.mem_cons.mp ha with h | h
      · exact Or.inl (h ▸ List.mem_cons_self x xs)
      · rcases ih m a h with h2 | ⟨b, hb, hab⟩
        · exact Or.inl (List.mem_cons_of_mem x h2)
        · exact Or.inr ⟨b, List.mem_cons_of_mem x hb, hab⟩

/-- Modifying slot 0 leaves the tail of the list unchanged. -/
theorem listModify_drop_one {α : Type} (l : List α) (f : α → α) :
    (listModify l 0 f).drop 1 = l.drop 1 := by
  cases l <;> rfl

/-- Membership in the tail of a one-element extension. -/
theorem mem_drop_one_append {α : Type} (l : List α) (x a : α)
    (ha : a ∈ (l ++ [x]).drop 1) : a ∈ l.drop 1 ∨ a = x := by
  cases l with
  | nil => simp at ha
  | cons y ys =>
    simp only [List.cons_append, List.drop_succ_cons, List.drop_zero] at ha
    rcases List.mem_append.mp ha with h | h
    · exact Or.inl h
    · exact Or.inr (List.mem_singleton.mp h)

/-- The degenerate-state invariant of `buildCache`: the counter is stuck at
0, every attribute written is 0, every stored group selector carries id 0,
and every group after the first has no children. -/
def CacheInv (st : CacheState) : Prop :=
  st.parents = 0 ∧
  (∀ pr ∈ st.attr, pr.2 = 0) ∧
  (∀ gr ∈ st.elements, gr.parent = 0) ∧
  (∀ gr ∈ st.elements.drop 1, gr.children = [])

/-- `pushChild` preserves the degenerate-state invariant. -/
theorem pushChild_inv (st : CacheState) (i : ℕ) (h : CacheInv st) :
    CacheInv (pushChild st i) := by
  obtain ⟨h0, hattr, hpar, htail⟩ := h
  refine ⟨h0, hattr, ?_, ?_⟩
  · intro gr hgr
    have hmem : gr ∈ st.elements ∨
        ∃ b ∈ st.elements, gr = (fun g => { g with children := g.children ++ [i] }) b := by
      apply mem_listModify st.elements st.parents _ gr
      exact hgr
    rcases hmem with h | ⟨b, hb, rfl⟩
    · exact hpar gr h
    · exact hpar b hb
  · intro gr hgr
    have : gr ∈ (listModify st.elements st.parents
        (fun g => { g with children := g.children ++ [i] })).drop 1 := hgr
    rw [h0, listModify_drop_one] at this
    exact htail gr this

/-- One `buildCache` iteration preserves the degenerate-state invariant:
the increment of `parents` is guarded by `parents > 0`, which never
holds. -/
theorem buildCacheStep_inv (st : CacheState) (i : ℕ) (c : GravityChild)
    (h : CacheInv st) : CacheInv (buildCacheStep st i c) := by
  obtain ⟨h0, hattr, hpar, htail⟩ := h
  unfold buildCacheStep
  cases hlk : lookupAttr st.attr c.parentKey with
  | some v => exact pushChild_inv st i ⟨h0, hattr, hpar, htail⟩
  | none =>
    simp only [h0, gt_iff_lt, lt_self_iff_false, if_false]
    apply pushChild_inv
    refine ⟨rfl, ?_, ?_, ?_⟩
    · intro pr hpr
      rcases List.mem_cons.mp hpr with h | h
      · rw [h]
      · exact hattr pr h
    · intro gr hgr
      rcases List.mem_append.mp hgr with h | h
      · exact hpar gr h
      · rw [List.mem_singleton.mp h]
    · intro gr hgr
      rcases mem_drop_one_append _ _ _ hgr with h | h
      · exact htail gr h
      · rw [h]

/-- The whole `each` loop preserves the degenerate-state invariant. -/
theorem buildCacheAux_inv (cs : List GravityChild) (i : ℕ) (st : CacheState)
    (h : CacheInv st) : CacheInv (buildCacheAux i cs st) := by
  induction cs generalizing i st with
  | nil => exact h
  | cons c cs ih => exact ih (i + 1) (buildCacheStep st i c) (buildCacheStep_inv st i c h)

/-- With the counter stuck at 0, one iteration keeps it at 0. -/
theorem buildCacheStep_parents (st : CacheState) (i : ℕ) (c : GravityChild)
    (h0 : st.parents = 0) : (buildCacheStep st i c).parents = 0 := by
  unfold buildCacheStep
  cases lookupAttr st.attr c.parentKey with
  | some v => exact h0
  | none =>
    simp only [h0, gt_iff_lt, lt_self_iff_false, if_false]
    rfl

/-- With the counter stuck at 0, one iteration appends exactly the current
child index to the first group's children. -/
theorem buildCacheStep_head (st : CacheState) (i : ℕ) (c : GravityChild)
    (h0 : st.parents = 0) (a : CacheGroup) (as : List CacheGroup)
    (helts : st.elements = a :: as) :
    ∃ as2, (buildCacheStep st i c).elements =
      { a with children := a.children ++ [i] } :: as2 := by
  unfold buildCacheStep
  cases lookupAttr st.attr c.parentKey with
  | some v =>
    refine ⟨as, ?_⟩
    simp only [pushChild, h0, helts]
    rfl
  | none =>
    refine ⟨as ++ [{ parent := 0, children := [] }], ?_⟩
    simp only [h0, gt_iff_lt, lt_self_iff_false, if_false, pushChild, helts]
    rfl

/-- Running the loop from a state with counter 0 appends all remaining
child indices, in order, to the first group's children. -/
theorem buildCacheAux_head (cs : List GravityChild) : ∀ (i : ℕ) (st : CacheState)
    (a : CacheGroup) (as : List CacheGroup), st.parents = 0 → st.elements = a :: as →
    ∃ as2, (buildCacheAux i cs st).elements =
      { a with children := a.children ++ List.range' i cs.length } :: as2 := by
  induction cs with
  | nil =>
    intro i st a as h0 helts
    refine ⟨as, ?_⟩
    simpa using helts
  | cons c cs ih =>
    intro i st a as h0 helts
    obtain ⟨as2, h2⟩ := buildCacheStep_head st i c h0 a as helts
    obtain ⟨as3, h3⟩ := ih (i + 1) (buildCacheStep st i c)
      { a with children := a.children ++ [i] } as2 (buildCacheStep_parents st i c h0) h2
    refine ⟨as3, ?_⟩
    have hstep : buildCacheAux i (c :: cs) st =
        buildCacheAux (i + 1) cs (buildCacheStep st i c) := rfl
    rw [hstep, h3]
    have hch : (a.children ++ [i]) ++ List.range' (i + 1) cs.length =
        a.children ++ List.range' i (c :: cs).length := by
      rw [List.length_cons, List.range'_succ, List.append_assoc, List.singleton_append]
    rw [hch]

/-- C10: the `parents` counter of `buildCache` is never incremented (its
increment is guarded by `parents > 0`, which never holds), so for every
tree every parent element is tagged with gravity-id 0, every stored group
selector carries id 0, every discovered child index is appended to the
first group's children (in document order), and every group after the
first has a permanently empty children list. -/
theorem c10_buildCache_degenerate (tree : List GravityChild) :
    (buildCache tree).parents = 0 ∧
    (∀ pr ∈ (buildCache tree).attr, pr.2 = 0) ∧
    (∀ gr ∈ (buildCache tree).elements, gr.parent = 0) ∧
    (∀ gr ∈ (buildCache tree).elements.drop 1, gr.children = []) ∧
    (tree ≠ [] → ∃ rest, (buildCache tree).elements =
      { parent := 0, children := List.range tree.length } :: rest) := by
  have hinv : CacheInv (buildCache tree) := by
    apply buildCacheAux_inv
    exact ⟨rfl, by simp, by simp, by simp⟩
  obtain ⟨h0, hattr, hpar, htail⟩ := hinv
  refine ⟨h0, hattr, hpar, htail, ?_⟩
  intro hne
  cases tree with
  | nil => exact absurd rfl hne
  | cons c cs =>
    have h1 : buildCacheStep { parents := 0, elements := [], attr := [] } 0 c =
        { parents := 0, elements := [{ parent := 0, children := [0] }],
          attr := [(c.parentKey, 0)] } := rfl
    have hrun : buildCache (c :: cs) =
        buildCacheAux 1 cs (buildCacheStep { parents := 0, elements := [], attr := [] } 0 c) :=
      rfl
    obtain ⟨as2, h2⟩ := buildCacheAux_head cs 1
      (buildCacheStep { parents := 0, elements := [], attr := [] } 0 c)
      { parent := 0, children := [0] } [] (by rw [h1]) (by rw [h1])
    refine ⟨as2, ?_⟩
    rw [hrun, h2]
    have hch : ([0] : List ℕ) ++ List.range' 1 cs.length = List.range (c :: cs).length := by
      rw [List.length_cons, List.range_eq_range', List.range'_succ, List.singleton_append]
    rw [hch]

/-- Two `.gravity` children under two distinct parent elements. -/
def tree2 : List GravityChild := [{ parentKey := 0 }, { parentKey := 1 }]

/-- C8 (code bug): on a tree with two children under two distinct parents,
`buildCache` writes gravity-id 0 onto both parents, bakes the same selector
id 0 into both group records, and files the second parent's child into the
first parent's group, leaving the second group's children empty — two
distinct parents receive the same identifier, refuting unique stable
identification. -/
theorem c8_duplicate_ids :
    (buildCache tree2).attr = [(1, 0), (0, 0)] ∧
    (buildCache tree2).elements =
      [{ parent := 0, children := [0, 1] }, { parent := 0, children := [] }] :=
  ⟨rfl, rfl⟩

/-- Witness for C10 on the two-parent tree. -/
theorem c10_witness :
    (buildCache tree2).parents = 0 ∧
    (∃ rest, (buildCache tree2).elements =
      { parent := 0, children := List.range tree2.length } :: rest) :=
  ⟨(c10_buildCache_degenerate tree2).1,
   (c10_buildCache_degenerate tree2).2.2.2.2 (by simp [tree2])⟩

end Gravity
